import Mathlib

/- Shallow embedding of src/app.py (거울상 챗봇: a Streamlit front-end around a
hosted generation API, with a mirror text transform, session logging, a
soliloquy loop, and optional speech playback). Machine-level collaborators
(file system, network, speech engine) are modelled as explicit outcome
parameters; Python exceptions become Except values. -/

/-- Python str.strip modelled on the character list: drop whitespace from both ends. -/
def pytrim (l : List Char) : List Char :=
  ((l.dropWhile Char.isWhitespace).reverse.dropWhile Char.isWhitespace).reverse

/-- Python str.strip on strings. -/
def pystrip (s : String) : String := String.mk (pytrim s.data)

/-- Python str.split() with no separator, on the character list: split on runs of
whitespace, producing no empty tokens; acc holds the current word reversed. -/
def splitWsAux : List Char → List Char → List (List Char)
  | [], acc => if acc.isEmpty then [] else [acc.reverse]
  | c :: cs, acc =>
    if c.isWhitespace then
      if acc.isEmpty then splitWsAux cs [] else acc.reverse :: splitWsAux cs []
    else splitWsAux cs (c :: acc)

/-- Python str.split() with no separator. -/
def pysplit (s : String) : List String := (splitWsAux s.data []).map String.mk

/-- The static mirror table mirror_hierarchy of app.py; each value is the inner
dict, embedded as the association list of its key-value pairs. -/
def mirror_hierarchy : List (String × List (String × String)) :=
  [("물", [("결론", "평화와 생명의 문")]),
   ("불", [("결론", "빛과 평화의 안내자")]),
   ("바람", [("결론", "자유와 흐름의 숨결")]),
   ("흙", [("결론", "품음과 뿌리의 안식")]),
   ("혼잣말", [("결론", "내면을 비추는 거울 같은 속삭임")])]

/-- Python dict.get with a default, on an association list. -/
def dictGetD {α : Type} (d : List (String × α)) (k : String) (dflt : α) : α :=
  match d.find? (fun p => p.1 == k) with
  | some p => p.2
  | none => dflt

/-- mirror_response from app.py: look the subject up in the table; an empty node
(Python falsy dict, i.e. the subject is absent) yields the fallback string,
otherwise the three-part composed string with the original stripped. -/
def mirror_response (subject original : String) : String :=
  let node := dictGetD mirror_hierarchy subject ([] : List (String × String))
  if node.isEmpty then
    "거울상: (주제 \x27" ++ subject ++ "\x27 정의 없음)\n\n" ++ original
  else
    "거울상 (" ++ subject ++ "):\n- 원문: " ++ pystrip original ++ "\n- 대조: " ++ subject ++
      "은/는 스스로 주장하지 않지만 모든 것을 담아낸다." ++ "\n- 종합: " ++ dictGetD node "결론" ""

/-- Substring containment: sub occurs contiguously inside s. -/
def strContains (s sub : String) : Prop := sub.data <:+: s.data

/-- The five option values collected in the sidebar UI of app.py. -/
structure GenOptions where
  max_tokens : Nat
  temperature : Rat
  top_k : Nat
  top_p : Rat
  repetition_penalty : Rat

/-- The generation_config ask_gemini builds: exactly max_output_tokens,
temperature and top_p (the source comments that top_k and repetition_penalty
are not supported by the API and passes neither). -/
structure GenerationConfig where
  max_output_tokens : Nat
  temperature : Rat
  top_p : Rat

/-- The request ask_gemini transmits: the prompt plus the generation config. -/
structure GenRequest where
  prompt : String
  config : GenerationConfig

/-- Request construction performed by ask_gemini in app.py. -/
def ask_gemini_request (opts : GenOptions) (user_input : String) : GenRequest :=
  { prompt := user_input,
    config := { max_output_tokens := opts.max_tokens,
                temperature := opts.temperature,
                top_p := opts.top_p } }

inductive Role
  | user
  | assistant
deriving DecidableEq

/-- Errors an event handler can raise: the generation call failing (ApiError) or
the empty-token lookup user_input.strip().split()[0] (IndexError). -/
inductive HErr
  | apiError
  | indexError
deriving DecidableEq

/-- Session state: the message history and the log file contents, one written
line per list entry. -/
structure Sess where
  messages : List (Role × String)
  log : List String
deriving DecidableEq

/-- The raw file write underlying write_log: appends the text plus a newline,
or fails with an I/O error depending on the outcome parameter. -/
def raw_write (writeOk : Bool) (logL : List String) (text : String) :
    Except String (List String) :=
  if writeOk then Except.ok (logL ++ [text ++ "\n"]) else Except.error "IOError"

/-- write_log from app.py: try the write and swallow any failure. -/
def write_log (writeOk : Bool) (logL : List String) (text : String) : List String :=
  match raw_write writeOk logL text with
  | Except.ok l => l
  | Except.error _ => logL

/-- The guard `if user_input:` of app.py §8 — Python truthiness of the raw string. -/
def pathTaken (input : String) : Bool := input != ""

/-- user_input.strip().split()[0]: the first whitespace-delimited token of the
trimmed input, none when the token list is empty (IndexError in Python). -/
def extractSubject (input : String) : Option String := (pysplit (pystrip input)).head?

/-- The mirror branch of the submission handler: extract the subject and
transform; IndexError when the trimmed input has no token. -/
def mirrorStage (mirror : Bool) (input raw : String) : Except HErr String :=
  if mirror then
    match extractSubject input with
    | none => Except.error HErr.indexError
    | some subj => Except.ok (mirror_response subj raw)
  else Except.ok raw

/-- The user-submission handler (app.py §8), with the generation call abstracted
as model and the log-write outcome as writeOk. History is updated before the
log write, matching the statement order in the source. -/
def handleSubmit (model : String → Except HErr String) (mirror writeOk : Bool)
    (input : String) (s : Sess) : Except HErr Sess :=
  if pathTaken input then
    match model input with
    | Except.error e => Except.error e
    | Except.ok raw =>
      match mirrorStage mirror input raw with
      | Except.error e => Except.error e
      | Except.ok answer =>
        Except.ok { messages := s.messages ++ [(Role.user, input), (Role.assistant, answer)],
                    log := write_log writeOk s.log ("USER: " ++ input ++ "\nASSISTANT: " ++ answer) }
  else Except.ok s

/-- The fixed soliloquy prompt of app.py §9. -/
def soliloquy_prompt : String :=
  "은은하고 조용한 혼잣말을 한국어로 1~3문장 해줘. \x27예수님의 평화와 양의 문\x27 상징을 가볍게 담아."

/-- One soliloquy cycle (app.py §9): generate, optionally mirror with the fixed
subject 혼잣말, append one assistant message, log one MONO record. -/
def soliloquyStep (model : String → Except HErr String) (mirror writeOk : Bool)
    (s : Sess) : Except HErr Sess :=
  match model soliloquy_prompt with
  | Except.error e => Except.error e
  | Except.ok raw =>
    let answer := if mirror then mirror_response "혼잣말" raw else raw
    Except.ok { messages := s.messages ++ [(Role.assistant, answer)],
                log := write_log writeOk s.log ("ASSISTANT(MONO): " ++ answer) }

/-- Post-event session state for a submission: an uncaught exception aborts the
script run before any state mutation, leaving the session state as it was. -/
def runSubmit (model : String → Except HErr String) (mirror writeOk : Bool)
    (input : String) (s : Sess) : Sess :=
  match handleSubmit model mirror writeOk input s with
  | Except.ok s2 => s2
  | Except.error _ => s

/-- Post-event session state for a soliloquy cycle, as for runSubmit. -/
def runSoliloquy (model : String → Except HErr String) (mirror writeOk : Bool)
    (s : Sess) : Sess :=
  match soliloquyStep model mirror writeOk s with
  | Except.ok s2 => s2
  | Except.error _ => s

/-- The two sidebar button events of app.py §5. -/
inductive BtnEvent
  | startBtn
  | stopBtn
deriving DecidableEq

/-- Button handling of app.py §5: the start button sets monologue_running, the
stop button clears it, regardless of the current value. -/
def pressButton (_running : Bool) (e : BtnEvent) : Bool :=
  match e with
  | BtnEvent.startBtn => true
  | BtnEvent.stopBtn => false

/-- Initialization of monologue_running in app.py §4. -/
def initialRunning : Bool := false

/-- Folding a sequence of button events over the running flag. -/
def runButtons (b : Bool) (es : List BtnEvent) : Bool := es.foldl pressButton b

/-- Speaker.speak from app.py: playback is scheduled iff the engine initialized
(ok) and the stripped text is non-empty; the result says whether playback was
scheduled. -/
def speak (ok : Bool) (text : String) : Bool := ok && (pystrip text != "")

/- Helper lemmas. -/

lemma strContains_parts (s pre mid post : String)
    (h : s.data = pre.data ++ (mid.data ++ post.data)) : strContains s mid := by
  refine ⟨pre.data, post.data, ?_⟩
  rw [List.append_assoc]
  exact h.symm

lemma strContains_parts_end (s pre mid : String)
    (h : s.data = pre.data ++ mid.data) : strContains s mid := by
  refine ⟨pre.data, [], ?_⟩
  rw [List.append_nil]
  exact h.symm

lemma mirror_parts (subject concl original : String)
    (h : mirror_response subject original =
      "거울상 (" ++ subject ++ "):\n- 원문: " ++ pystrip original ++ "\n- 대조: " ++ subject ++
        "은/는 스스로 주장하지 않지만 모든 것을 담아낸다." ++ "\n- 종합: " ++ concl) :
    strContains (mirror_response subject original) (pystrip original) ∧
    strContains (mirror_response subject original)
      (subject ++ "은/는 스스로 주장하지 않지만 모든 것을 담아낸다.") ∧
    strContains (mirror_response subject original) concl := by
  refine ⟨strContains_parts _ ("거울상 (" ++ subject ++ "):\n- 원문: ") _
      ("\n- 대조: " ++ subject ++ "은/는 스스로 주장하지 않지만 모든 것을 담아낸다." ++
        "\n- 종합: " ++ concl) ?_,
    strContains_parts _ ("거울상 (" ++ subject ++ "):\n- 원문: " ++ pystrip original ++ "\n- 대조: ") _
      ("\n- 종합: " ++ concl) ?_,
    strContains_parts_end _
      ("거울상 (" ++ subject ++ "):\n- 원문: " ++ pystrip original ++ "\n- 대조: " ++ subject ++
        "은/는 스스로 주장하지 않지만 모든 것을 담아낸다." ++ "\n- 종합: ") _ ?_⟩ <;>
    rw [h] <;> simp [String.data_append, List.append_assoc]

/-- Claim C1 (amended part): for a subject found in the table, the transform
output contains the trimmed original, the contrastive sentence with the subject
substituted, and the node conclusion, and repeated calls agree. -/
theorem mirror_found_contains_parts :
    ∀ (subject original : String) (entry : String × List (String × String)),
    mirror_hierarchy.find? (fun p => p.1 == subject) = some entry →
    strContains (mirror_response subject original) (pystrip original) ∧
    strContains (mirror_response subject original)
      (subject ++ "은/는 스스로 주장하지 않지만 모든 것을 담아낸다.") ∧
    strContains (mirror_response subject original) (dictGetD entry.2 "결론" "") ∧
    mirror_response subject original = mirror_response subject original := by
  intro subject original entry h
  have hmem : entry ∈ mirror_hierarchy := List.mem_of_find?_eq_some h
  have hkey0 := List.find?_some h
  have hkey : entry.1 = subject := by simpa using hkey0
  clear h hkey0
  simp only [mirror_hierarchy, List.mem_cons, List.not_mem_nil, or_false] at hmem
  rcases hmem with h1 | h1 | h1 | h1 | h1 <;> subst h1 <;> subst hkey <;>
    exact ⟨(mirror_parts _ _ original rfl).1, (mirror_parts _ _ original rfl).2.1,
      (mirror_parts _ _ original rfl).2.2, rfl⟩

/-- Claim C1 (witness): the amended statement evaluated at subject 물 and an
original with surrounding whitespace. -/
theorem mirror_found_contains_parts_witness :
    strContains (mirror_response "물" " 고요함 ") (pystrip " 고요함 ") ∧
    strContains (mirror_response "물" " 고요함 ")
      ("물" ++ "은/는 스스로 주장하지 않지만 모든 것을 담아낸다.") ∧
    strContains (mirror_response "물" " 고요함 ")
      (dictGetD (("물", [("결론", "평화와 생명의 문")]) :
        String × List (String × String)).2 "결론" "") ∧
    mirror_response "물" " 고요함 " = mirror_response "물" " 고요함 " :=
  mirror_found_contains_parts "물" " 고요함 " ("물", [("결론", "평화와 생명의 문")]) (by decide)

set_option maxRecDepth 8192 in
/-- Claim C1 (counterexample): the output does not contain the literal original
text when the original carries trailing whitespace, because the source strips
it: transform(물, "x ") does not contain "x ". -/
theorem mirror_found_not_contains_raw_original :
    ¬ strContains (mirror_response "물" "x ") "x " := by
  unfold strContains
  decide

/-- Claim C2: for a subject absent from the table, the transform returns exactly
the fallback string, which contains the literal subject and the original text
unmodified; the function is total by construction. -/
theorem mirror_missing_fallback :
    ∀ subject original : String,
    mirror_hierarchy.find? (fun p => p.1 == subject) = none →
    mirror_response subject original =
      "거울상: (주제 \x27" ++ subject ++ "\x27 정의 없음)\n\n" ++ original ∧
    strContains (mirror_response subject original) subject ∧
    strContains (mirror_response subject original) original := by
  intro subject original h
  have hnode : dictGetD mirror_hierarchy subject ([] : List (String × String)) = [] := by
    unfold dictGetD
    rw [h]
  have heq : mirror_response subject original =
      "거울상: (주제 \x27" ++ subject ++ "\x27 정의 없음)\n\n" ++ original := by
    simp [mirror_response, hnode]
  refine ⟨heq, ?_, ?_⟩
  · refine strContains_parts _ "거울상: (주제 \x27" _ ("\x27 정의 없음)\n\n" ++ original) ?_
    rw [heq]
    simp [String.data_append, List.append_assoc]
  · refine strContains_parts_end _ ("거울상: (주제 \x27" ++ subject ++ "\x27 정의 없음)\n\n") _ ?_
    rw [heq]
    simp [String.data_append, List.append_assoc]

/-- Claim C2 (witness): the fallback evaluated at an absent subject and an
original with surrounding whitespace. -/
theorem mirror_missing_fallback_witness :
    mirror_response "나무" " 조용한 강 " =
      "거울상: (주제 \x27" ++ "나무" ++ "\x27 정의 없음)\n\n" ++ " 조용한 강 " ∧
    strContains (mirror_response "나무" " 조용한 강 ") "나무" ∧
    strContains (mirror_response "나무" " 조용한 강 ") " 조용한 강 " :=
  mirror_missing_fallback "나무" " 조용한 강 " (by decide)

/-- Claim C3: the request ask_gemini constructs passes max_output_tokens,
temperature and top_p through exactly, and is independent of the top_k and
repetition_penalty UI values, which have no counterpart field in the request. -/
theorem gemini_request_passthrough_and_ignored_options :
    ∀ (opts : GenOptions) (user_input : String),
    (ask_gemini_request opts user_input).config.max_output_tokens = opts.max_tokens ∧
    (ask_gemini_request opts user_input).config.temperature = opts.temperature ∧
    (ask_gemini_request opts user_input).config.top_p = opts.top_p ∧
    (ask_gemini_request opts user_input).prompt = user_input ∧
    ∀ (k : Nat) (r : Rat),
      ask_gemini_request { opts with top_k := k, repetition_penalty := r } user_input =
        ask_gemini_request opts user_input := by
  intro opts user_input
  exact ⟨rfl, rfl, rfl, rfl, fun k r => rfl⟩

/-- Claim C4: write_log returns normally on both write outcomes (its result is
one of the two normal values, never an exception), and on a failed write the
submission handler still returns normally with the history updated and the log
unchanged. -/
theorem write_log_total_and_history_preserved :
    ∀ (writeOk : Bool) (logL : List String) (text input t : String) (s : Sess),
    (write_log writeOk logL text = logL ++ [text ++ "\n"] ∨
      write_log writeOk logL text = logL) ∧
    (input ≠ "" →
      handleSubmit (fun _ => Except.ok t) false false input s =
        Except.ok { messages := s.messages ++ [(Role.user, input), (Role.assistant, t)],
                    log := s.log }) := by
  intro writeOk logL text input t s
  constructor
  · cases writeOk
    · right
      rfl
    · left
      rfl
  · intro h
    have hpt : pathTaken input = true := by simp [pathTaken, h]
    simp [handleSubmit, hpt, mirrorStage, write_log, raw_write]

/-- Claim C4 (witness): a failed write at a concrete submission still yields the
updated history and an unchanged log. -/
theorem write_log_total_and_history_preserved_witness :
    (write_log false [] "기록" = [] ++ ["기록" ++ "\n"] ∨ write_log false [] "기록" = []) ∧
    ("안녕" ≠ "" →
      handleSubmit (fun _ => Except.ok "반가워") false false "안녕" ⟨[], []⟩ =
        Except.ok { messages := ([] : List (Role × String)) ++
                      [(Role.user, "안녕"), (Role.assistant, "반가워")],
                    log := [] }) :=
  write_log_total_and_history_preserved false [] "기록" "안녕" "반가워" ⟨[], []⟩

/- Shape lemmas for Python strip and split, used for the submission guard. -/

lemma dropWhile_append_singleton (p : Char → Bool) :
    ∀ (xs : List Char) (c : Char), p c = false →
    ∃ t, (xs ++ [c]).dropWhile p = t ++ [c] := by
  intro xs c hc
  induction xs with
  | nil =>
    refine ⟨[], ?_⟩
    simp [List.dropWhile_cons, hc]
  | cons x xs ih =>
    cases hx : p x with
    | true =>
      obtain ⟨t, ht⟩ := ih
      refine ⟨t, ?_⟩
      simp [List.dropWhile_cons, hx, ht]
    | false =>
      refine ⟨x :: xs, ?_⟩
      simp [List.dropWhile_cons, hx]

lemma dropWhile_shape (p : Char → Bool) :
    ∀ l : List Char, l.dropWhile p = [] ∨
      ∃ c t, l.dropWhile p = c :: t ∧ p c = false := by
  intro l
  induction l with
  | nil =>
    left
    rfl
  | cons x xs ih =>
    cases hx : p x with
    | true => simpa [List.dropWhile_cons, hx] using ih
    | false =>
      right
      exact ⟨x, xs, by simp [List.dropWhile_cons, hx], hx⟩

lemma pytrim_shape :
    ∀ l : List Char, pytrim l = [] ∨
      ∃ c t, pytrim l = c :: t ∧ c.isWhitespace = false := by
  intro l
  unfold pytrim
  rcases dropWhile_shape Char.isWhitespace l with h | ⟨c, t, h, hc⟩
  · left
    simp [h]
  · rw [h]
    obtain ⟨u, hu⟩ := dropWhile_append_singleton Char.isWhitespace t.reverse c hc
    right
    refine ⟨c, u.reverse, ?_, hc⟩
    rw [List.reverse_cons, hu]
    simp

lemma splitWsAux_ne_nil : ∀ (l acc : List Char), acc ≠ [] → splitWsAux l acc ≠ [] := by
  intro l
  induction l with
  | nil =>
    intro acc h
    cases acc with
    | nil => exact absurd rfl h
    | cons a as => simp [splitWsAux]
  | cons c cs ih =>
    intro acc h
    cases hws : c.isWhitespace with
    | true =>
      cases acc with
      | nil => exact absurd rfl h
      | cons a as => simp [splitWsAux, hws]
    | false =>
      simpa [splitWsAux, hws] using ih (c :: acc) (by simp)

lemma extractSubject_isSome_of_strip_ne :
    ∀ input : String, pystrip input ≠ "" → (extractSubject input).isSome = true := by
  intro input h
  have hne : pytrim input.data ≠ [] := by
    intro hnil
    apply h
    unfold pystrip
    rw [hnil]
  rcases pytrim_shape input.data with h0 | ⟨c, t, h0, hc⟩
  · exact absurd h0 hne
  · show ((splitWsAux (pytrim input.data) []).map String.mk).head?.isSome = true
    rw [h0]
    have h1 : splitWsAux (c :: t) [] = splitWsAux t [c] := by
      simp [splitWsAux, hc]
    rw [h1]
    cases h3 : splitWsAux t [c] with
    | nil => exact absurd h3 (splitWsAux_ne_nil t [c] (by simp))
    | cons w ws => simp

/-- Claim C5 (counterexample): the submission path is guarded by Python
truthiness of the raw input, not of its trimmed form: the whitespace-only input
" " takes the path although its trimmed form is empty, and subject extraction
on it finds no token (the IndexError branch is reachable). -/
theorem submit_guard_untrimmed_counterexample :
    pathTaken " " = true ∧ pystrip " " = "" ∧ extractSubject " " = none := by decide

/-- Claim C5 (amended): the submission path is executed exactly for non-empty
raw inputs, and subject extraction succeeds whenever the trimmed input is
non-empty. -/
theorem submit_guard_and_extraction :
    ∀ input : String,
    (pathTaken input = true ↔ input ≠ "") ∧
    (pystrip input ≠ "" → (extractSubject input).isSome = true) := by
  intro input
  constructor
  · simp [pathTaken]
  · exact extractSubject_isSome_of_strip_ne input

/-- Claim C5 (witness): the amended statement evaluated at a concrete input. -/
theorem submit_guard_and_extraction_witness :
    (pathTaken "물 이야기해줘" = true ↔ "물 이야기해줘" ≠ "") ∧
    (extractSubject "물 이야기해줘").isSome = true :=
  ⟨(submit_guard_and_extraction "물 이야기해줘").1,
   (submit_guard_and_extraction "물 이야기해줘").2 (by decide)⟩

/-- Claim C6: a submission with mirror mode on whose first token is found by
extraction, against a model returning t and a successful write, appends exactly
the user message followed by the assistant message carrying the transform of
the first token, and adds exactly one USER/ASSISTANT log block. -/
theorem submit_mirror_appends_and_logs :
    ∀ (input t subj : String) (s : Sess),
    input ≠ "" →
    extractSubject input = some subj →
    (mirror_hierarchy.find? (fun p => p.1 == subj)).isSome = true →
    handleSubmit (fun _ => Except.ok t) true true input s =
      Except.ok { messages := s.messages ++
                    [(Role.user, input), (Role.assistant, mirror_response subj t)],
                  log := s.log ++
                    ["USER: " ++ input ++ "\nASSISTANT: " ++ mirror_response subj t ++ "\n"] } := by
  intro input t subj s hne hsubj hkey
  have hpt : pathTaken input = true := by simp [pathTaken, hne]
  simp [handleSubmit, hpt, mirrorStage, hsubj, write_log, raw_write]

/-- Claim C6 (witness): the spec scenario — input 물 이야기해줘, model mock
고요함, mirror mode on — evaluated from the empty session. -/
theorem submit_mirror_appends_and_logs_witness :
    handleSubmit (fun _ => Except.ok "고요함") true true "물 이야기해줘" ⟨[], []⟩ =
      Except.ok { messages := ([] : List (Role × String)) ++
                    [(Role.user, "물 이야기해줘"),
                     (Role.assistant, mirror_response "물" "고요함")],
                  log := ([] : List String) ++
                    ["USER: " ++ "물 이야기해줘" ++ "\nASSISTANT: " ++
                      mirror_response "물" "고요함" ++ "\n"] } :=
  submit_mirror_appends_and_logs "물 이야기해줘" "고요함" "물" ⟨[], []⟩
    (by decide) (by decide) (by decide)

/-- Claim C7: a soliloquy cycle against a model returning t with a successful
write appends exactly one assistant message — t when mirror mode is off, the
transform with subject 혼잣말 when it is on — and adds exactly one
ASSISTANT(MONO) log record. -/
theorem soliloquy_appends_and_logs :
    ∀ (t : String) (mirror : Bool) (s : Sess),
    soliloquyStep (fun _ => Except.ok t) mirror true s =
      Except.ok { messages := s.messages ++
                    [(Role.assistant, if mirror then mirror_response "혼잣말" t else t)],
                  log := s.log ++
                    ["ASSISTANT(MONO): " ++
                      (if mirror then mirror_response "혼잣말" t else t) ++ "\n"] } := by
  intro t mirror s
  cases mirror <;> simp [soliloquyStep, write_log, raw_write]

/-- Claim C8: the soliloquy flag starts false (Idle); the start button from Idle
yields the active state, the stop button from active yields Idle, and after any
event sequence pressing start twice equals pressing it once. -/
theorem soliloquy_button_transitions :
    initialRunning = false ∧
    pressButton false BtnEvent.startBtn = true ∧
    pressButton true BtnEvent.stopBtn = false ∧
    ∀ (b : Bool) (es : List BtnEvent),
      runButtons b (es ++ [BtnEvent.startBtn, BtnEvent.startBtn]) =
        runButtons b (es ++ [BtnEvent.startBtn]) := by
  refine ⟨rfl, rfl, rfl, fun b es => ?_⟩
  simp [runButtons, List.foldl_append, pressButton]

/-- Claim C9: speak schedules no playback when the engine failed to initialize
or the trimmed text is empty, and schedules playback exactly when the engine is
initialized and the trimmed text is non-empty; it is a total function. -/
theorem speak_noop_and_schedule_conditions :
    ∀ (ok : Bool) (text : String),
    (ok = false → speak ok text = false) ∧
    (pystrip text = "" → speak ok text = false) ∧
    (speak ok text = true ↔ (ok = true ∧ pystrip text ≠ "")) := by
  intro ok text
  refine ⟨?_, ?_, ?_⟩
  · intro h
    rw [h]
    rfl
  · intro h
    simp [speak, h]
  · simp [speak]

/-- Claim C9 (witness): a failed engine and a whitespace-only text each yield no
playback at concrete inputs. -/
theorem speak_noop_and_schedule_conditions_witness :
    speak false "안녕하세요" = false ∧ speak true "   " = false :=
  ⟨(speak_noop_and_schedule_conditions false "안녕하세요").1 rfl,
   (speak_noop_and_schedule_conditions true "   ").2.1 (by decide)⟩

/-- Claim C10: when the generation call fails, both the submission event and the
soliloquy event leave the session state — message history and log — exactly as
it was. -/
theorem api_error_leaves_state_unchanged :
    ∀ (e : HErr) (mirror writeOk : Bool) (input : String) (s : Sess),
    runSubmit (fun _ => Except.error e) mirror writeOk input s = s ∧
    runSoliloquy (fun _ => Except.error e) mirror writeOk s = s := by
  intro e mirror writeOk input s
  constructor
  · unfold runSubmit handleSubmit
    cases hp : pathTaken input <;> simp [hp]
  · unfold runSoliloquy soliloquyStep
    simp
